import Mathlib

/-!
Verification development for the copra trading-and-lending ledger
(backend of the `capstone` repository).

Shallow embedding conventions:
* Monetary quantities are modelled as rationals (`ℚ`); the JavaScript
  source performs ordinary IEEE arithmetic on small decimal values, and
  every claim under scrutiny is about the exact algebra of the update
  rules, so the idealised field `ℚ` is used throughout.
* Mongo documents are modelled as Lean structures holding the fields the
  cited routines read and write.  Persistence is modelled as functional
  record update.  Saving a `Loan` document runs the model's
  `pre('save')` middleware (`loanPreSave` below), which is part of the
  Loan model itself (src/backend/src/models/Supplier.js, LoanSchema
  section, lines 122-129).
* `JS Math.round x` equals `⌊x + 1/2⌋` on the reals; it is embedded as
  `jsRound` below.
* The `Loan` structure carries every field the cited code reads or
  writes on a loan document.  The Loan schema
  (src/backend/src/models/Supplier.js, lines 67-119) declares `amount`,
  `total_paid`, `status` and the date fields, but NOT `interest_rate`,
  `total_amount_with_interest`, `principal_paid` or `interest_paid`;
  under Mongoose strict mode (the default) writes to undeclared paths
  are dropped when a document is saved, so loans read back from the
  store hold those fields at their creation defaults.  The functions
  that model persisted state on the live transaction path therefore
  update only declared Loan fields; `applyLoanPaymentHook` embeds the
  LoanPayment `post('save')` amortization computation as the cited
  lines perform it on the document (the algorithm of the Loan
  Amortization Module), and `applyLoanPaymentStored` is its surviving
  persisted effect (the `total_paid` increment plus the Loan model's
  own pre-save check).
* The Transaction model's `post('save')` allocator
  (transactionSchema.post in src/backend/src/models/Supplier.js) fires
  on every save of a completed transaction, including the creation
  route's own saves.  Its loan query compares `total_paid` with the
  undeclared `total_amount_with_interest`, which no stored loan
  carries, so on the live path it always takes its
  no-outstanding-loans branch (lines 321-331) and resets
  `amount_after_deduction` and `paid_amount` to `total_amount` after
  the route's write; that reset is composed into
  `routeCreateTransaction`.  The allocation loop itself
  (lines 242-304) is embedded as `hookAllocate`.
-/

/-- JS `Math.round`: round half toward positive infinity. -/
def jsRound (q : ℚ) : ℤ := ⌊q + 1/2⌋

/-- Loan lifecycle states (LoanSchema `status` enum). -/
inductive LoanStatus where
  | pending
  | approved
  | rejected
  | paid
  | cancelled
  | voided
deriving Repr, DecidableEq

/-- Transaction lifecycle states (transactionSchema `status` enum). -/
inductive TxStatus where
  | pending
  | completed
  | cancelled
  | voided
deriving Repr, DecidableEq

/-- A Loan document, with the fields the cited routines manipulate.
`total_amount_with_interest` and `interest_rate` are optional because
the LoanPayment hook (src/backend/src/models/LoanPayment.js, lines
66-72) treats them as possibly absent and falls back to `amount`.
`completionDateSet` models whether `completionDate` holds a date. -/
structure Loan where
  amount : ℚ
  interest_rate : Option ℚ := none
  total_amount_with_interest : Option ℚ := none
  total_paid : ℚ := 0
  principal_paid : ℚ := 0
  interest_paid : ℚ := 0
  status : LoanStatus := .pending
  completionDateSet : Bool := false
deriving Repr, DecidableEq

/-- A Transaction document (the fields touched by the cited routes). -/
structure Tx where
  total_amount : ℚ
  status : TxStatus
  loan_deduction : ℚ := 0
  amount_after_deduction : ℚ
  paid_amount : ℚ := 0
  loan_payments : List (Nat × ℚ) := []
deriving Repr, DecidableEq

/-- A LoanPayment document: loan id, optional transaction id, amount. -/
structure PaymentRec where
  loan : Nat
  txRef : Option Nat
  amount : ℚ
deriving Repr, DecidableEq

/-- Look up a loan by id in an association list of loan documents. -/
def lookupLoan (loans : List (Nat × Loan)) (i : Nat) : Option Loan :=
  (loans.find? (fun p => p.1 = i)).map Prod.snd

/-- Replace the loan stored under id `i`. -/
def updateLoan (loans : List (Nat × Loan)) (i : Nat) (l : Loan) :
    List (Nat × Loan) :=
  loans.map (fun p => if p.1 = i then (i, l) else p)

/-- LoanSchema.pre('save') (models/Supplier.js lines 122-129): while a
loan is `approved`, reaching `total_paid >= amount` flips it to `paid`
and stamps the completion date.  Runs on every save of a Loan. -/
def loanPreSave (l : Loan) : Loan :=
  if l.status = .approved ∧ l.amount ≤ l.total_paid then
    { l with status := .paid, completionDateSet := true }
  else l

/-- Effective total-with-interest used by the LoanPayment hook
(LoanPayment.js lines 66-72): the stored value if present, otherwise
`amount * (1 + rate/100)` if a rate is present, otherwise `amount`. -/
def effectiveTawi (l : Loan) : ℚ :=
  match l.total_amount_with_interest with
  | some w => w
  | none =>
    match l.interest_rate with
    | some r => l.amount + l.amount * (r / 100)
    | none => l.amount

/-- LoanPaymentSchema.post('save') (LoanPayment.js lines 49-107) net
effect on the loan: add the payment to `total_paid`, split it
interest-first (interest remaining is `tawi - amount - interest_paid`),
mark `paid` when `total_paid` reaches `tawi`, then save the loan (which
runs `loanPreSave`).  The hook also writes the computed effective
`total_amount_with_interest` back onto the document. -/
def applyLoanPaymentHook (l : Loan) (a : ℚ) : Loan :=
  let w := effectiveTawi l
  let t := l.total_paid + a
  let interestRemaining := w - l.amount - l.interest_paid
  let l' :=
    if 0 < interestRemaining then
      let interestPayment := min a interestRemaining
      { l with
          total_amount_with_interest := some w
          total_paid := t
          interest_paid := l.interest_paid + interestPayment
          principal_paid := l.principal_paid + (a - interestPayment) }
    else
      { l with
          total_amount_with_interest := some w
          total_paid := t
          principal_paid := l.principal_paid + a }
  let l'' := if w ≤ l'.total_paid then
      { l' with status := .paid, completionDateSet := true }
    else l'
  loanPreSave l''

/-- The status check the creation route performs on its own copy of the
loan after the auto-debit (transaction.routes.js lines 231-236): mark
`paid` when `total_paid >= amount`, stamping the completion date. -/
def routeLoanFinish (l : Loan) : Loan :=
  if l.amount ≤ l.total_paid then
    { l with status := .paid, completionDateSet := true }
  else l

/-- The persisted effect of saving a LoanPayment for a stored loan: of
the LoanPayment hook's writes only the `total_paid` increment lands on
a declared field (the interest/principal split and the
with-interest total of LoanPayment.js lines 62-92 go to paths the Loan
schema does not declare and are dropped, and the line-95 `paid` check
compares against the undeclared total and never fires); the subsequent
`loan.save()` runs the Loan model's pre-save check. -/
def applyLoanPaymentStored (l : Loan) (a : ℚ) : Loan :=
  loanPreSave { l with total_paid := l.total_paid + a }

/-- The ledger state the transaction routes operate on: one supplier's
loan documents (in `createdAt` ascending order, as the routes sort
them), the LoanPayment collection, and the transaction in question. -/
structure LedgerState where
  loans : List (Nat × Loan)
  payments : List PaymentRec
  tx : Tx
deriving Repr, DecidableEq

/-- `POST /api/transactions` (transaction.routes.js lines 117-271), the
live transaction-creation path, for a completed purchase of total price
`T`.  The route takes the *first* approved loan only (lines 185-186),
computes `deductionAmount = min(total_price, amount - total_paid)`
(lines 189-192) — no 40% ceiling — and, when positive, writes the
deduction onto the transaction, inserts a LoanPayment, and re-affirms
the loan total and `paid` check on its own copy (lines 228-239); the
loan's net persisted update is `total_paid += deductionAmount` plus the
`paid` flip at `amount` (`applyLoanPaymentStored` then
`routeLoanFinish`, which agree on the flip condition).  Every
`transaction.save()` also fires the Transaction model's post-save hook,
which finds no loans matching its query and therefore resets
`amount_after_deduction` and `paid_amount` to `total_amount`
(models/Supplier.js lines 321-331) after the route's write;
`loan_deduction` and `loan_payments` keep the route's values. -/
def routeCreateTransaction (txId : Nat) (T : ℚ)
    (loans : List (Nat × Loan)) (pays : List PaymentRec) : LedgerState :=
  let approvedLoans :=
    loans.filter (fun p => decide (p.2.status = LoanStatus.approved))
  match approvedLoans with
  | [] =>
    { loans := loans, payments := pays,
      tx := { total_amount := T, status := .completed, loan_deduction := 0,
              amount_after_deduction := T, paid_amount := T,
              loan_payments := [] } }
  | (i, l) :: _ =>
    let remainingLoanAmount := l.amount - l.total_paid
    let deductionAmount := min T remainingLoanAmount
    if 0 < deductionAmount then
      let l' := routeLoanFinish (applyLoanPaymentStored l deductionAmount)
      { loans := updateLoan loans i l'
        payments := { loan := i, txRef := some txId,
                      amount := deductionAmount } :: pays
        tx := { total_amount := T, status := .completed,
                loan_deduction := deductionAmount,
                amount_after_deduction := T,
                paid_amount := T,
                loan_payments := [(i, deductionAmount)] } }
    else
      { loans := loans, payments := pays,
        tx := { total_amount := T, status := .completed, loan_deduction := 0,
                amount_after_deduction := T, paid_amount := T,
                loan_payments := [] } }

/-- Per-loan reversal step of the cancel/void routes
(transaction.routes.js lines 350-362 and 428-440): subtract the
recorded amount from `total_paid` only, and if the loan was `paid` but
`total_paid` has dropped below `amount`, revert it to `approved` and
clear the completion date.  `interest_paid` and `principal_paid` are
not touched.  Saving the loan then runs `loanPreSave`. -/
def reverseLoanUpdate (l : Loan) (a : ℚ) : Loan :=
  let l1 := { l with total_paid := l.total_paid - a }
  let l2 :=
    if l1.status = .paid ∧ l1.total_paid < l1.amount then
      { l1 with status := .approved, completionDateSet := false }
    else l1
  loanPreSave l2

/-- `LoanPayment.deleteOne({transaction, loan})`: remove the first
payment row tied to the given transaction and loan. -/
def deletePaymentRec (txId lid : Nat) : List PaymentRec → List PaymentRec
  | [] => []
  | p :: rest =>
    if p.txRef = some txId ∧ p.loan = lid then rest
    else p :: deletePaymentRec txId lid rest

/-- The reversal loop shared by the cancel and void routes: walk the
transaction's recorded `{loan, amount}` pairs, reversing each loan that
can be resolved and deleting its LoanPayment row. -/
def reverseAllPairs (txId : Nat) :
    List (Nat × ℚ) → List (Nat × Loan) × List PaymentRec →
    List (Nat × Loan) × List PaymentRec
  | [], st => st
  | (lid, a) :: rest, (loans, pays) =>
    match lookupLoan loans lid with
    | some l =>
      reverseAllPairs txId rest
        (updateLoan loans lid (reverseLoanUpdate l a),
         deletePaymentRec txId lid pays)
    | none => reverseAllPairs txId rest (loans, pays)

/-- `PATCH /api/transactions/:id/cancel` or `/:id/void`
(transaction.routes.js lines 329-404 and 407-482); the two bodies are
identical except for the terminal status.  Legal only while the
transaction is `completed` (`none` models the 400 rejection).  When the
transaction recorded a positive deduction, every recorded pair is
reversed; then the transaction's `loan_deduction`, `loan_payments` and
`paid_amount` are zeroed and its status set to the terminal state. -/
def reverseTransaction (target : TxStatus) (txId : Nat)
    (st : LedgerState) : Option LedgerState :=
  if st.tx.status = .completed then
    let st' :=
      if 0 < st.tx.loan_deduction ∧ st.tx.loan_payments ≠ [] then
        reverseAllPairs txId st.tx.loan_payments (st.loans, st.payments)
      else (st.loans, st.payments)
    some
      { loans := st'.1
        payments := st'.2
        tx := { st.tx with
                  status := target
                  loan_deduction := 0
                  loan_payments := []
                  paid_amount := 0 } }
  else none

/-- The cancel route (terminal status `cancelled`). -/
def cancelTransaction (txId : Nat) (st : LedgerState) :
    Option LedgerState :=
  reverseTransaction .cancelled txId st

/-- The void route (terminal status `voided`). -/
def voidTransaction (txId : Nat) (st : LedgerState) :
    Option LedgerState :=
  reverseTransaction .voided txId st

/-- `total_amount_with_interest || amount` as the model hook's allocator
reads it (models/Supplier.js line 246). -/
def tawiOrAmount (l : Loan) : ℚ :=
  (l.total_amount_with_interest.getD l.amount)

/-- Loan filter of the Transaction model's post('save') allocator
(models/Supplier.js lines 224-228): approved loans not yet paid up to
their total with interest, oldest first. -/
def hookOutstanding (loans : List (Nat × Loan)) : List (Nat × Loan) :=
  loans.filter
    (fun p => decide (p.2.status = LoanStatus.approved ∧
                      p.2.total_paid < tawiOrAmount p.2))

/-- The allocation loop of the Transaction model's post('save') hook
(models/Supplier.js lines 242-304): walk the outstanding loans with the
remaining deduction budget, taking `min(remainingDeduction,
loanRemainingAmount)` from each; stop when the budget is exhausted.
Returns the recorded total deduction and the `{loan, amount}` pairs. -/
def hookAllocGo : ℚ → List (Nat × Loan) → ℚ × List (Nat × ℚ)
  | _, [] => (0, [])
  | b, (i, l) :: rest =>
    if b ≤ 0 then (0, [])
    else
      let loanRemainingAmount := tawiOrAmount l - l.total_paid
      let currentDeduction := min b loanRemainingAmount
      if 0 < currentDeduction then
        let r := hookAllocGo (b - currentDeduction) rest
        (currentDeduction + r.1, (i, currentDeduction) :: r.2)
      else hookAllocGo b rest

/-- The Transaction model's post('save') auto-debit allocator
(models/Supplier.js lines 213-332): budget `0.4 * total_amount`
("increased from 30% to 40%", line 233), walked FIFO over the
outstanding loans; the transaction is then updated with
`loan_deduction = totalDeduction` and
`amount_after_deduction = total_amount - totalDeduction`.
Returns (totalDeduction, recorded pairs, amount_after_deduction). -/
def hookAllocate (T : ℚ) (loans : List (Nat × Loan)) :
    ℚ × List (Nat × ℚ) × ℚ :=
  let r := hookAllocGo (T * (2/5)) (hookOutstanding loans)
  (r.1, r.2, T - r.1)

/-- Result of `checkLoanEligibility` (loan.routes.js lines 121-176). -/
structure Eligibility where
  eligible : Bool
  limit : ℤ
  transaction_count : ℕ
  average_transaction : ℚ
deriving Repr, DecidableEq

/-- `checkLoanEligibility(supplierId, requestedAmount)`
(loan.routes.js lines 121-176), over the supplier's completed
transaction totals.  No transactions: not eligible, limit 0.
Otherwise eligible with `limit = Math.round(average * 0.40)` — the
requested amount is *never consulted*. -/
def checkLoanEligibility (amounts : List ℚ) : Eligibility :=
  match amounts with
  | [] => { eligible := false, limit := 0, transaction_count := 0,
            average_transaction := 0 }
  | _ =>
    let n : ℚ := amounts.length
    let avg := amounts.sum / n
    { eligible := true, limit := jsRound (avg * (2/5)),
      transaction_count := amounts.length, average_transaction := avg }

/-- `POST /api/loans` (loan.routes.js lines 314-358): reject when the
supplier is not eligible or the limit is non-positive; otherwise create
the loan in status `pending` with
`total_amount_with_interest = amount * (1 + rate/100)`.  The requested
`amount` is never compared against the limit. -/
def routeCreateLoan (amounts : List ℚ) (amount rate : ℚ) : Option Loan :=
  let e := checkLoanEligibility amounts
  if ¬ e.eligible ∨ e.limit ≤ 0 then none
  else some
    { amount := amount, interest_rate := some rate,
      total_amount_with_interest := some (amount + amount * (rate / 100)),
      total_paid := 0, principal_paid := 0, interest_paid := 0,
      status := .pending }

/-- A stored CreditScore record (the fields the scoring code writes). -/
structure CreditScoreRec where
  score : ℤ
  transaction_consistency : ℤ
  total_supply_score : ℤ
  transaction_count_score : ℤ
  eligible_amount : ℚ
  transaction_count : ℕ
  average_transaction : ℚ
  credit_percentage : ℚ
deriving Repr, DecidableEq

/-- The score-tiered percentage table of the Transaction model's hook
(models/Supplier.js lines 397-403). -/
def tierPercentage (finalScore : ℚ) : ℚ :=
  if 80 ≤ finalScore then 3/5
  else if 60 ≤ finalScore then 1/2
  else if 40 ≤ finalScore then 2/5
  else if 30 < finalScore then 3/10
  else if 20 ≤ finalScore then 3/20
  else 0

/-- The initial credit score the Transaction model's hook stores for a
supplier with fewer than two completed transactions
(models/Supplier.js lines 343-359): score 20, count 1,
`eligible_amount = total_amount * 0.15`, `credit_percentage = 0.15`;
the three sub-scores are left at the CreditScore schema default 0. -/
def initialCreditScore (totalAmount : ℚ) : CreditScoreRec :=
  { score := 20, transaction_consistency := 0, total_supply_score := 0,
    transaction_count_score := 0,
    eligible_amount := totalAmount * (3/20), transaction_count := 1,
    average_transaction := totalAmount, credit_percentage := 3/20 }

/-- `Math.min(...amounts)` over a nonempty list (head as seed). -/
def listMin : List ℚ → ℚ
  | [] => 0
  | a :: rest => rest.foldl min a

/-- `Math.max(...amounts)` over a nonempty list (head as seed). -/
def listMax : List ℚ → ℚ
  | [] => 0
  | a :: rest => rest.foldl max a

/-- The credit score the Transaction model's hook computes and stores
for a supplier with at least two completed transactions
(models/Supplier.js lines 374-437): consistency `min/max * 100`, supply
`sum/(max*n) * 100`, count `min(100, n/10 * 100)`, final score their
mean, percentage from the tiered table, and
`eligible_amount = Math.round(average * percentage)`.  Integer fields
are stored `Math.round`ed. -/
def hookCreditScore (amounts : List ℚ) : CreditScoreRec :=
  let n : ℚ := amounts.length
  let smallestTransaction := listMin amounts
  let largestTransaction := listMax amounts
  let transactionConsistency :=
    smallestTransaction / largestTransaction * 100
  let totalSupplied := amounts.sum
  let totalSupplyScore := totalSupplied / (largestTransaction * n) * 100
  let transactionCountScore := min 100 (n / 10 * 100)
  let finalScore :=
    (transactionConsistency + totalSupplyScore + transactionCountScore) / 3
  let averageTransaction := totalSupplied / n
  let creditPercentage := tierPercentage finalScore
  { score := jsRound finalScore,
    transaction_consistency := jsRound transactionConsistency,
    total_supply_score := jsRound totalSupplyScore,
    transaction_count_score := jsRound transactionCountScore,
    eligible_amount := (jsRound (averageTransaction * creditPercentage) : ℤ),
    transaction_count := amounts.length,
    average_transaction := averageTransaction,
    credit_percentage := creditPercentage }

/-- A Supplier document (the field the Balance Aggregator owns). -/
structure Supplier where
  current_balance : ℚ := 0
deriving Repr, DecidableEq

/-- The aggregation of `recalculateSupplierBalance`
(src/lib/utils/supplierBalanceUtils.js lines 91-140): sum of
`amount - (total_paid ?? 0)` over the supplier's `approved` loans,
0 when there are none. -/
def recalcBalance (loans : List (Nat × Loan)) : ℚ :=
  ((loans.filter (fun p => decide (p.2.status = LoanStatus.approved))).map
    (fun p => p.2.amount - p.2.total_paid)).sum

/-- `recalculateSupplierBalance(supplierId)`: compute the aggregate,
write it to `Supplier.current_balance`, and return it. -/
def recalculateSupplierBalance (sup : Supplier)
    (loans : List (Nat × Loan)) : ℚ × Supplier :=
  let currentBalance := recalcBalance loans
  (currentBalance, { sup with current_balance := currentBalance })

example :
    (applyLoanPaymentHook
      { amount := 1000, total_amount_with_interest := some 1100,
        status := .approved } 800).interest_paid = 100 := by
  norm_num [applyLoanPaymentHook, effectiveTawi, loanPreSave]

example :
    (applyLoanPaymentHook
      { amount := 1000, total_amount_with_interest := some 1100,
        status := .approved } 800).principal_paid = 700 := by
  norm_num [applyLoanPaymentHook, effectiveTawi, loanPreSave]

/-! ### Helper lemmas about the per-loan update functions -/

theorem loanPreSave_amount (l : Loan) : (loanPreSave l).amount = l.amount := by
  simp only [loanPreSave]; split_ifs <;> rfl

theorem loanPreSave_total_paid (l : Loan) :
    (loanPreSave l).total_paid = l.total_paid := by
  simp only [loanPreSave]; split_ifs <;> rfl

theorem loanPreSave_interest_paid (l : Loan) :
    (loanPreSave l).interest_paid = l.interest_paid := by
  simp only [loanPreSave]; split_ifs <;> rfl

theorem loanPreSave_principal_paid (l : Loan) :
    (loanPreSave l).principal_paid = l.principal_paid := by
  simp only [loanPreSave]; split_ifs <;> rfl

theorem applyLoanPaymentHook_total_paid (l : Loan) (a : ℚ) :
    (applyLoanPaymentHook l a).total_paid = l.total_paid + a := by
  simp only [applyLoanPaymentHook, loanPreSave]
  split_ifs <;> rfl

theorem applyLoanPaymentHook_amount (l : Loan) (a : ℚ) :
    (applyLoanPaymentHook l a).amount = l.amount := by
  simp only [applyLoanPaymentHook, loanPreSave]
  split_ifs <;> rfl

theorem applyLoanPaymentHook_conservation (l : Loan) (a : ℚ) :
    (applyLoanPaymentHook l a).principal_paid +
      (applyLoanPaymentHook l a).interest_paid =
    l.principal_paid + l.interest_paid + a := by
  simp only [applyLoanPaymentHook, loanPreSave]
  split_ifs <;> (simp only []; ring)

theorem applyLoanPaymentHook_status (l : Loan) (a : ℚ)
    (h : l.status = .approved) :
    (applyLoanPaymentHook l a).status = .approved ∨
      (applyLoanPaymentHook l a).status = .paid := by
  simp only [applyLoanPaymentHook, loanPreSave]
  split_ifs <;> simp [h]

theorem routeLoanFinish_total_paid (l : Loan) :
    (routeLoanFinish l).total_paid = l.total_paid := by
  simp only [routeLoanFinish]; split_ifs <;> rfl

theorem routeLoanFinish_amount (l : Loan) :
    (routeLoanFinish l).amount = l.amount := by
  simp only [routeLoanFinish]; split_ifs <;> rfl

theorem routeLoanFinish_interest_paid (l : Loan) :
    (routeLoanFinish l).interest_paid = l.interest_paid := by
  simp only [routeLoanFinish]; split_ifs <;> rfl

theorem routeLoanFinish_principal_paid (l : Loan) :
    (routeLoanFinish l).principal_paid = l.principal_paid := by
  simp only [routeLoanFinish]; split_ifs <;> rfl

theorem routeLoanFinish_status (l : Loan) :
    (routeLoanFinish l).status = l.status ∨
      (routeLoanFinish l).status = .paid := by
  simp only [routeLoanFinish]; split_ifs <;> simp

theorem applyLoanPaymentStored_total_paid (l : Loan) (a : ℚ) :
    (applyLoanPaymentStored l a).total_paid = l.total_paid + a := by
  simp only [applyLoanPaymentStored]
  rw [loanPreSave_total_paid]

theorem applyLoanPaymentStored_amount (l : Loan) (a : ℚ) :
    (applyLoanPaymentStored l a).amount = l.amount := by
  simp only [applyLoanPaymentStored]
  rw [loanPreSave_amount]

theorem applyLoanPaymentStored_principal_paid (l : Loan) (a : ℚ) :
    (applyLoanPaymentStored l a).principal_paid = l.principal_paid := by
  simp only [applyLoanPaymentStored]
  rw [loanPreSave_principal_paid]

theorem applyLoanPaymentStored_interest_paid (l : Loan) (a : ℚ) :
    (applyLoanPaymentStored l a).interest_paid = l.interest_paid := by
  simp only [applyLoanPaymentStored]
  rw [loanPreSave_interest_paid]

theorem applyLoanPaymentStored_status (l : Loan) (a : ℚ)
    (h : l.status = .approved) :
    (applyLoanPaymentStored l a).status = .approved ∨
      (applyLoanPaymentStored l a).status = .paid := by
  simp only [applyLoanPaymentStored, loanPreSave]
  split_ifs <;> simp [h]

/-- The status dichotomy for the creation route's net persisted per-loan
update. -/
theorem routeNetStored_status (l : Loan) (a : ℚ)
    (h : l.status = .approved) :
    (routeLoanFinish (applyLoanPaymentStored l a)).status = .approved ∨
      (routeLoanFinish (applyLoanPaymentStored l a)).status = .paid := by
  rcases routeLoanFinish_status (applyLoanPaymentStored l a) with hh | hh
  · rw [hh]
    exact applyLoanPaymentStored_status l a h
  · exact Or.inr hh

/-! ### Claim theorems -/

/-- C4: for a loan in status `approved` with stored total-with-interest
`w` and a payment amount `a > 0`, the loan-payment application sets
`interestPortion = min(a, max(w - amount - interestPaid, 0))` and
`principalPortion = a - interestPortion`, and increases `totalPaid` by
exactly `a`, `interestPaid` by the interest portion and
`principalPaid` by the principal portion. -/
theorem loan_payment_split_correct (l : Loan) (w a : ℚ)
    (hw : l.total_amount_with_interest = some w)
    (ha : 0 < a) (hst : l.status = .approved) :
    (applyLoanPaymentHook l a).interest_paid =
      l.interest_paid + min a (max (w - l.amount - l.interest_paid) 0) ∧
    (applyLoanPaymentHook l a).principal_paid =
      l.principal_paid +
        (a - min a (max (w - l.amount - l.interest_paid) 0)) ∧
    (applyLoanPaymentHook l a).total_paid = l.total_paid + a := by
  have hwe : effectiveTawi l = w := by simp [effectiveTawi, hw]
  simp only [applyLoanPaymentHook, loanPreSave, hwe]
  rcases lt_or_le 0 (w - l.amount - l.interest_paid) with hpos | hneg
  · rw [if_pos hpos, max_eq_left hpos.le]
    split_ifs <;> exact ⟨rfl, rfl, rfl⟩
  · rw [if_neg (not_lt.mpr hneg), max_eq_right hneg, min_eq_right ha.le]
    split_ifs <;> exact ⟨by simp, by simp, rfl⟩

/-- C4 witness: the split at a concrete loan
(amount 1000, total with interest 1100) and payment 800. -/
theorem loan_payment_split_correct_witness :
    ({ amount := 1000, total_amount_with_interest := some 1100,
       status := .approved : Loan }.total_amount_with_interest
        = some 1100) ∧ (0 : ℚ) < 800 ∧
    ({ amount := 1000, total_amount_with_interest := some 1100,
       status := .approved : Loan }.status = .approved) ∧
    ((applyLoanPaymentHook
        { amount := 1000, total_amount_with_interest := some 1100,
          status := .approved } 800).interest_paid =
      0 + min 800 (max ((1100 : ℚ) - 1000 - 0) 0) ∧
     (applyLoanPaymentHook
        { amount := 1000, total_amount_with_interest := some 1100,
          status := .approved } 800).principal_paid =
      0 + (800 - min 800 (max ((1100 : ℚ) - 1000 - 0) 0)) ∧
     (applyLoanPaymentHook
        { amount := 1000, total_amount_with_interest := some 1100,
          status := .approved } 800).total_paid = 0 + 800) :=
  ⟨rfl, by norm_num, rfl,
   loan_payment_split_correct _ 1100 800 rfl (by norm_num) rfl⟩

/-- C8 counterexample: a loan with `amount = 1000`,
`total_amount_with_interest = 1100` and `total_paid = 1000` is flipped
to `paid` by the Loan model's pre-save hook even though
`totalPaid < totalAmountWithInterest`, refuting the claim that status
becomes `paid` exactly when `totalPaid >= totalAmountWithInterest`. -/
theorem loan_paid_threshold_counterexample :
    (loanPreSave
      { amount := 1000, total_amount_with_interest := some 1100,
        total_paid := 1000, status := .approved }).status = .paid ∧
    ¬ ((1100 : ℚ) ≤
        ({ amount := 1000, total_amount_with_interest := some 1100,
           total_paid := 1000, status := .approved : Loan }).total_paid) := by
  constructor
  · norm_num [loanPreSave]
  · norm_num

/-- C8 amended: for every loan, saving marks it `paid` exactly when it
already is `paid` or it is `approved` with `total_paid >= amount` (the
principal — not the total with interest); and whenever a reversal on a
`paid` loan leaves `total_paid` below `amount`, the status reverts to
`approved` and the completion date is cleared, with `total_paid`
reduced by the reversed amount. -/
theorem loan_paid_threshold_amended (l : Loan) (a : ℚ) :
    ((loanPreSave l).status = .paid ↔
      (l.status = .paid ∨ (l.status = .approved ∧ l.amount ≤ l.total_paid)))
      ∧
    (l.status = .paid → l.total_paid - a < l.amount →
      (reverseLoanUpdate l a).status = .approved ∧
      (reverseLoanUpdate l a).completionDateSet = false ∧
      (reverseLoanUpdate l a).total_paid = l.total_paid - a) := by
  refine ⟨?_, ?_⟩
  · simp only [loanPreSave]
    split_ifs with h
    · simp [h.1, h.2]
    · rw [not_and_or] at h
      constructor
      · intro hpd
        exact Or.inl hpd
      · rintro (hpd | ⟨hap, hle⟩)
        · exact hpd
        · exact absurd hle (by tauto)
  · intro hp hlt
    simp only [reverseLoanUpdate, loanPreSave]
    split_ifs with h1 h2 h3
    · exact absurd h2.2 (not_le.mpr hlt)
    · exact ⟨rfl, rfl, rfl⟩
    · exact absurd ⟨hp, hlt⟩ h1
    · exact absurd ⟨hp, hlt⟩ h1

/-- C8 amended witness: the paid-iff characterization at an `approved`
loan whose `total_paid` (1000) has reached the principal but not the
1100 with-interest total, and the reversal clauses at a concrete paid
loan reversed by 500. -/
theorem loan_paid_threshold_amended_witness :
    ((loanPreSave
        { amount := 1000, total_amount_with_interest := some 1100,
          total_paid := 1000, status := .approved }).status = .paid ↔
      ({ amount := 1000, total_amount_with_interest := some 1100,
         total_paid := 1000, status := .approved : Loan }.status = .paid ∨
       ({ amount := 1000, total_amount_with_interest := some 1100,
          total_paid := 1000, status := .approved : Loan }.status
            = .approved ∧
        { amount := 1000, total_amount_with_interest := some 1100,
          total_paid := 1000, status := .approved : Loan }.amount ≤
        { amount := 1000, total_amount_with_interest := some 1100,
          total_paid := 1000, status := .approved : Loan }.total_paid)))
      ∧
    ({ amount := 1000, total_amount_with_interest := some 1100,
       total_paid := 1000, status := .paid : Loan }.status = .paid) ∧
    ({ amount := 1000, total_amount_with_interest := some 1100,
       total_paid := 1000, status := .paid : Loan }.total_paid - 500 <
      { amount := 1000, total_amount_with_interest := some 1100,
        total_paid := 1000, status := .paid : Loan }.amount) ∧
    ((reverseLoanUpdate
        { amount := 1000, total_amount_with_interest := some 1100,
          total_paid := 1000, status := .paid } 500).status = .approved ∧
     (reverseLoanUpdate
        { amount := 1000, total_amount_with_interest := some 1100,
          total_paid := 1000, status := .paid } 500).completionDateSet
        = false ∧
     (reverseLoanUpdate
        { amount := 1000, total_amount_with_interest := some 1100,
          total_paid := 1000, status := .paid } 500).total_paid
        = 1000 - 500) := by
  have hiff := (loan_paid_threshold_amended
    { amount := 1000, total_amount_with_interest := some 1100,
      total_paid := 1000, status := .approved } 0).1
  have hrev := (loan_paid_threshold_amended
    { amount := 1000, total_amount_with_interest := some 1100,
      total_paid := 1000, status := .paid } 500).2 rfl (by norm_num)
  exact ⟨hiff, rfl, by norm_num, hrev.1, hrev.2.1, by rw [hrev.2.2]⟩

/-- C10: the Supplier Balance Aggregator writes exactly
`sum(loan.amount - loan.total_paid)` over the supplier's approved loans
to `current_balance`, returns that value, and is idempotent on an
unchanged loan set. -/
theorem recalculate_balance_correct (sup : Supplier)
    (loans : List (Nat × Loan)) :
    (recalculateSupplierBalance sup loans).2.current_balance =
      (loans.map (fun p =>
        if p.2.status = .approved then p.2.amount - p.2.total_paid
        else 0)).sum ∧
    (recalculateSupplierBalance sup loans).1 =
      (recalculateSupplierBalance sup loans).2.current_balance ∧
    recalculateSupplierBalance
        (recalculateSupplierBalance sup loans).2 loans =
      recalculateSupplierBalance sup loans := by
  have hsum : recalcBalance loans =
      (loans.map (fun p =>
        if p.2.status = .approved then p.2.amount - p.2.total_paid
        else 0)).sum := by
    induction loans with
    | nil => rfl
    | cons p rest ih =>
      by_cases hp : p.2.status = LoanStatus.approved
      · simpa [recalcBalance, List.filter_cons, hp] using
          congrArg (fun q => p.2.amount - p.2.total_paid + q) ih
      · simpa [recalcBalance, List.filter_cons, hp] using ih
  exact ⟨hsum, rfl, rfl⟩

/-- C7 counterexample: for a single completed transaction of 500, the
stored initial credit score carries `credit_percentage = 0.15` and
`eligible_amount = 500 * 0.15 = 75`, not the claimed fixed `0.40` and
`round(500 * 0.40) = 200`. -/
theorem starter_score_counterexample :
    (initialCreditScore 500).credit_percentage = 3/20 ∧
    ¬ ((initialCreditScore 500).credit_percentage = 2/5) ∧
    (initialCreditScore 500).eligible_amount = 75 ∧
    ¬ ((initialCreditScore 500).eligible_amount = 200) := by
  refine ⟨rfl, ?_, ?_, ?_⟩ <;> norm_num [initialCreditScore]

/-- C7 amended: with exactly one completed transaction of total `t`,
the Transaction hook stores score 20, transaction count 1, sub-scores
at the schema default 0, `credit_percentage = 0.15` and
`eligible_amount = t * 0.15` (unrounded), while the loan-eligibility
check independently computes the limit `round(t * 0.40)` with
eligibility granted. -/
theorem starter_score_amended (t : ℚ) :
    (initialCreditScore t).score = 20 ∧
    (initialCreditScore t).transaction_count = 1 ∧
    (initialCreditScore t).transaction_consistency = 0 ∧
    (initialCreditScore t).total_supply_score = 0 ∧
    (initialCreditScore t).transaction_count_score = 0 ∧
    (initialCreditScore t).credit_percentage = 3/20 ∧
    (initialCreditScore t).eligible_amount = t * (3/20) ∧
    (initialCreditScore t).average_transaction = t ∧
    (checkLoanEligibility [t]).eligible = true ∧
    (checkLoanEligibility [t]).limit = jsRound (t * (2/5)) := by
  refine ⟨rfl, rfl, rfl, rfl, rfl, rfl, rfl, rfl, rfl, ?_⟩
  simp [checkLoanEligibility]

/-- C9: loan creation never compares the requested amount with the
computed limit.  Evaluated at the failing input: a supplier whose only
completed transaction totals 500 has limit 200, yet a loan request of
1000 — five times the limit — is accepted and created `pending`. -/
theorem loan_eligibility_gap_eval :
    (checkLoanEligibility [500]).eligible = true ∧
    (checkLoanEligibility [500]).limit = 200 ∧
    ((200 : ℤ) < 1000) ∧
    routeCreateLoan [500] 1000 10 =
      some { amount := 1000, interest_rate := some 10,
             total_amount_with_interest := some 1100,
             total_paid := 0, principal_paid := 0, interest_paid := 0,
             status := .pending } := by
  have hlim : (checkLoanEligibility [500]).limit = 200 := by
    simp only [checkLoanEligibility, jsRound]
    norm_num
  have helig : (checkLoanEligibility [500]).eligible = true := rfl
  refine ⟨rfl, hlim, by norm_num, ?_⟩
  simp only [routeCreateLoan, hlim, helig]
  norm_num

/-- C6 counterexample: for two completed transactions of 1000 each, the
final score is (100 + 100 + 20)/3 = 220/3 ≈ 73.3, so the tiered table
stores `credit_percentage = 0.5` and
`eligible_amount = round(1000 * 0.5) = 500` — not the claimed fixed
0.40 with `round(1000 * 0.40) = 400`. -/
theorem credit_score_fixed_pct_counterexample :
    (hookCreditScore [1000, 1000]).credit_percentage = 1/2 ∧
    ¬ ((hookCreditScore [1000, 1000]).credit_percentage = 2/5) ∧
    (hookCreditScore [1000, 1000]).eligible_amount = 500 ∧
    ¬ ((hookCreditScore [1000, 1000]).eligible_amount = 400) := by
  have hpct : (hookCreditScore [1000, 1000]).credit_percentage = 1/2 := by
    simp only [hookCreditScore, tierPercentage, listMin, listMax]
    norm_num
  have heli : (hookCreditScore [1000, 1000]).eligible_amount = 500 := by
    simp only [hookCreditScore, tierPercentage, listMin, listMax, jsRound]
    norm_num
  exact ⟨hpct, by rw [hpct]; norm_num, heli, by rw [heli]; norm_num⟩

/-- C6 amended: for two or more completed transactions, the stored
score is `round(mean(consistency, supply, count))` with the sub-score
formulas of the source, but `credit_percentage` follows the score-tiered
table (0.6/0.5/0.4/0.3/0.15/0) — not a fixed 0.40 — and
`eligible_amount = round(average * thatPercentage)`.  The fixed 0.40
rule lives only in the loan-eligibility check, whose limit is
`round(average * 0.40)`. -/
theorem credit_score_formula_amended (amounts : List ℚ)
    (h2 : 2 ≤ amounts.length) :
    (hookCreditScore amounts).score =
      jsRound ((listMin amounts / listMax amounts * 100 +
        amounts.sum / (listMax amounts * amounts.length) * 100 +
        min 100 ((amounts.length : ℚ) / 10 * 100)) / 3) ∧
    (hookCreditScore amounts).credit_percentage =
      tierPercentage ((listMin amounts / listMax amounts * 100 +
        amounts.sum / (listMax amounts * amounts.length) * 100 +
        min 100 ((amounts.length : ℚ) / 10 * 100)) / 3) ∧
    (hookCreditScore amounts).eligible_amount =
      (jsRound (amounts.sum / amounts.length *
        (hookCreditScore amounts).credit_percentage) : ℤ) ∧
    (checkLoanEligibility amounts).limit =
      jsRound (amounts.sum / amounts.length * (2/5)) := by
  refine ⟨rfl, rfl, rfl, ?_⟩
  cases amounts with
  | nil => simp at h2
  | cons a rest => rfl

/-- C6 amended witness: the formulas at the two transactions
[1000, 2000]. -/
theorem credit_score_formula_amended_witness :
    2 ≤ ([1000, 2000] : List ℚ).length ∧
    ((hookCreditScore [1000, 2000]).score =
      jsRound ((listMin [1000, 2000] / listMax [1000, 2000] * 100 +
        ([1000, 2000] : List ℚ).sum /
          (listMax [1000, 2000] * ([1000, 2000] : List ℚ).length) * 100 +
        min 100 ((([1000, 2000] : List ℚ).length : ℚ) / 10 * 100)) / 3) ∧
     (hookCreditScore [1000, 2000]).credit_percentage =
      tierPercentage ((listMin [1000, 2000] / listMax [1000, 2000] * 100 +
        ([1000, 2000] : List ℚ).sum /
          (listMax [1000, 2000] * ([1000, 2000] : List ℚ).length) * 100 +
        min 100 ((([1000, 2000] : List ℚ).length : ℚ) / 10 * 100)) / 3) ∧
     (hookCreditScore [1000, 2000]).eligible_amount =
      (jsRound (([1000, 2000] : List ℚ).sum /
          ([1000, 2000] : List ℚ).length *
        (hookCreditScore [1000, 2000]).credit_percentage) : ℤ) ∧
     (checkLoanEligibility [1000, 2000]).limit =
      jsRound (([1000, 2000] : List ℚ).sum /
        ([1000, 2000] : List ℚ).length * (2/5))) :=
  ⟨by norm_num, credit_score_formula_amended [1000, 2000] (by norm_num)⟩

/-! ### Further helper lemmas -/

theorem reverseLoanUpdate_total_paid (l : Loan) (a : ℚ) :
    (reverseLoanUpdate l a).total_paid = l.total_paid - a := by
  simp only [reverseLoanUpdate, loanPreSave]
  split_ifs <;> rfl

theorem reverseLoanUpdate_principal_paid (l : Loan) (a : ℚ) :
    (reverseLoanUpdate l a).principal_paid = l.principal_paid := by
  simp only [reverseLoanUpdate, loanPreSave]
  split_ifs <;> rfl

theorem reverseLoanUpdate_interest_paid (l : Loan) (a : ℚ) :
    (reverseLoanUpdate l a).interest_paid = l.interest_paid := by
  simp only [reverseLoanUpdate, loanPreSave]
  split_ifs <;> rfl

theorem reverseLoanUpdate_status_approved (l : Loan) (a : ℚ)
    (h : l.status = .approved ∨ l.status = .paid)
    (hlt : l.total_paid - a < l.amount) :
    (reverseLoanUpdate l a).status = .approved := by
  rcases h with h | h <;>
  · simp only [reverseLoanUpdate, loanPreSave]
    split_ifs with h1 h2 h3
    · exact absurd h2.2 (not_le.mpr hlt)
    · rfl
    · exact absurd h3.2 (not_le.mpr hlt)
    · first
        | exact h
        | exact absurd ⟨h, hlt⟩ h1

/-- The hook's allocation loop never records more than its budget. -/
theorem hookAllocGo_fst_le :
    ∀ (L : List (Nat × Loan)) (b : ℚ), 0 ≤ b → (hookAllocGo b L).1 ≤ b
  | [], b, hb => by simpa [hookAllocGo] using hb
  | (i, l) :: rest, b, hb => by
    by_cases hb0 : b ≤ 0
    · simpa [hookAllocGo, hb0] using hb
    · rw [hookAllocGo, if_neg hb0]
      by_cases hdpos : 0 < min b (tawiOrAmount l - l.total_paid)
      · rw [if_pos hdpos]
        have hdb : min b (tawiOrAmount l - l.total_paid) ≤ b :=
          min_le_left _ _
        have hrec := hookAllocGo_fst_le rest
          (b - min b (tawiOrAmount l - l.total_paid)) (by linarith)
        show min b (tawiOrAmount l - l.total_paid) +
          (hookAllocGo (b - min b (tawiOrAmount l - l.total_paid)) rest).1
            ≤ b
        linarith
      · rw [if_neg hdpos]
        exact hookAllocGo_fst_le rest b hb

/-- A concrete outstanding loan: 1000 principal at 10% interest. -/
def loanA : Loan :=
  { amount := 1000, interest_rate := some 10,
    total_amount_with_interest := some 1100, status := .approved }

/-- C1 counterexample: a completed transaction of total 100 for a
supplier owing `loanA` is debited `min(100, 1000) = 100` by the live
creation route — the whole transaction amount, breaking the claimed
`totalDeduction <= 0.40 * totalAmount` ceiling (100 > 40); and the
stored `amountAfterDeduction` is 100, not
`totalAmount - totalDeduction = 0`, because the Transaction model's
post-save hook resets it to `totalAmount` after the route's write. -/
theorem auto_debit_ceiling_counterexample :
    (routeCreateTransaction 7 100 [(1, loanA)] []).tx.loan_deduction
      = 100 ∧
    (routeCreateTransaction 7 100 [(1, loanA)] []).tx.total_amount
      = 100 ∧
    ¬ ((routeCreateTransaction 7 100 [(1, loanA)] []).tx.loan_deduction ≤
        2/5 * (routeCreateTransaction 7 100 [(1, loanA)] []).tx.total_amount)
      ∧
    (routeCreateTransaction 7 100 [(1, loanA)] []).tx.amount_after_deduction
      = 100 ∧
    ¬ ((routeCreateTransaction 7 100 [(1, loanA)] []).tx.amount_after_deduction
        = (routeCreateTransaction 7 100 [(1, loanA)] []).tx.total_amount -
          (routeCreateTransaction 7 100 [(1, loanA)] []).tx.loan_deduction)
    := by
  have hfil : ([(1, loanA)] : List (Nat × Loan)).filter
      (fun p => decide (p.2.status = LoanStatus.approved)) = [(1, loanA)]
      := by simp [loanA]
  have hmin : min (100 : ℚ) (loanA.amount - loanA.total_paid) = 100 := by
    norm_num [loanA, min_def]
  simp only [routeCreateTransaction, hfil]
  rw [if_pos (show (0:ℚ) < min 100 (loanA.amount - loanA.total_paid) by
    rw [hmin]; norm_num)]
  exact ⟨hmin, rfl, by rw [hmin]; norm_num, rfl, by rw [hmin]; norm_num⟩

/-- C1 amended: at the live creation route the deduction is capped only
by the transaction total (it is `min(totalAmount, first loan's
remaining principal)`, with no 0.40 factor), and the stored
`amountAfterDeduction` and `paidAmount` end at `totalAmount` — the
Transaction model's post-save hook, whose loan query matches no stored
document, resets them after the route's write — so
`amountAfterDeduction = totalAmount - totalDeduction` fails whenever
the deduction is positive.  The `0.40 * totalAmount` ceiling holds only
for the model allocator's recorded totals, where also
`amountAfterDeduction = totalAmount - totalDeduction`. -/
theorem auto_debit_ceiling_amended (txId : Nat) (T : ℚ)
    (loans : List (Nat × Loan)) (pays : List PaymentRec) (hT : 0 ≤ T) :
    ((routeCreateTransaction txId T loans pays).tx.loan_deduction ≤ T ∧
     (routeCreateTransaction txId T loans pays).tx.amount_after_deduction
       = T ∧
     (routeCreateTransaction txId T loans pays).tx.paid_amount = T) ∧
    ((hookAllocate T loans).1 ≤ 2/5 * T ∧
     (hookAllocate T loans).2.2 = T - (hookAllocate T loans).1) := by
  constructor
  · cases hfil : loans.filter
        (fun p => decide (p.2.status = LoanStatus.approved)) with
    | nil =>
      simp only [routeCreateTransaction, hfil]
      exact ⟨hT, trivial, trivial⟩
    | cons hd tl =>
      obtain ⟨i, l⟩ := hd
      simp only [routeCreateTransaction, hfil]
      by_cases hd0 : 0 < min T (l.amount - l.total_paid)
      · rw [if_pos hd0]
        exact ⟨min_le_left _ _, rfl, rfl⟩
      · rw [if_neg hd0]
        exact ⟨hT, rfl, rfl⟩
  · refine ⟨?_, rfl⟩
    have hb : (0:ℚ) ≤ T * (2/5) := by
      have : (0:ℚ) ≤ (2/5 : ℚ) := by norm_num
      exact mul_nonneg hT this
    have hle := hookAllocGo_fst_le (hookOutstanding loans) (T * (2/5)) hb
    calc (hookAllocate T loans).1
        = (hookAllocGo (T * (2/5)) (hookOutstanding loans)).1 := rfl
      _ ≤ T * (2/5) := hle
      _ = 2/5 * T := by ring

/-- C1 amended witness: the route and hook bounds at the concrete
transaction of 100 against `loanA`. -/
theorem auto_debit_ceiling_amended_witness :
    (0 : ℚ) ≤ 100 ∧
    (((routeCreateTransaction 7 100 [(1, loanA)] []).tx.loan_deduction
        ≤ 100 ∧
      (routeCreateTransaction 7 100 [(1, loanA)] []).tx.amount_after_deduction
        = 100 ∧
      (routeCreateTransaction 7 100 [(1, loanA)] []).tx.paid_amount
        = 100) ∧
     ((hookAllocate 100 [(1, loanA)]).1 ≤ 2/5 * 100 ∧
      (hookAllocate 100 [(1, loanA)]).2.2 =
        100 - (hookAllocate 100 [(1, loanA)]).1)) :=
  ⟨by norm_num, auto_debit_ceiling_amended 7 100 [(1, loanA)] []
    (by norm_num)⟩

/-- An older small loan: 100, no interest, fully outstanding. -/
def loanC1 : Loan :=
  { amount := 100, total_amount_with_interest := some 100,
    status := .approved }

/-- A newer larger loan: 500, no interest, fully outstanding. -/
def loanC2 : Loan :=
  { amount := 500, total_amount_with_interest := some 500,
    status := .approved }

/-- C5 counterexample: with outstanding loans `loanC1` (oldest) and
`loanC2` and a completed transaction of 1000, the claimed walk would
leave `loanC2` with the leftover budget
`0.40 * 1000 - 100 = 300` added to its `total_paid`; the live creation
route instead touches only the first loan, leaving `loanC2`'s
`total_paid` unchanged at 0. -/
theorem fifo_allocation_counterexample :
    (lookupLoan
      (routeCreateTransaction 7 1000 [(1, loanC1), (2, loanC2)] []).loans
      2).map Loan.total_paid = some loanC2.total_paid ∧
    ¬ (loanC2.total_paid = loanC2.total_paid +
        (2/5 * 1000 - (tawiOrAmount loanC1 - loanC1.total_paid))) := by
  constructor
  · have hfil : ([(1, loanC1), (2, loanC2)] : List (Nat × Loan)).filter
        (fun p => decide (p.2.status = LoanStatus.approved)) =
        [(1, loanC1), (2, loanC2)] := by simp [loanC1, loanC2]
    simp only [routeCreateTransaction, hfil]
    rw [if_pos (show (0:ℚ) <
        min 1000 (loanC1.amount - loanC1.total_paid) by
      norm_num [loanC1, min_def])]
    simp [updateLoan, lookupLoan, List.find?]
  · norm_num [loanC1, loanC2, tawiOrAmount]

/-- C5 amended: the live creation route deducts only from the first
(oldest) approved loan, leaving every later loan untouched; the
FIFO walk with per-loan `min(remainingBudget, loanRemaining)` under the
`0.40 * totalAmount` budget exists only in the Transaction model's
post-save allocator, whose recorded pairs for two outstanding loans —
when the budget exceeds the first loan's remainder and the leftover
fits inside the second — are exactly (first loan's full remainder,
leftover budget), exhausting the budget. -/
theorem fifo_allocation_amended (txId : Nat) (T : ℚ) (l1 l2 : Loan)
    (pays : List PaymentRec)
    (h1a : l1.status = .approved) (h2a : l2.status = .approved)
    (h1o : l1.total_paid < tawiOrAmount l1)
    (h2o : l2.total_paid < tawiOrAmount l2)
    (hrem : tawiOrAmount l1 - l1.total_paid < T * (2/5))
    (hleft : T * (2/5) - (tawiOrAmount l1 - l1.total_paid) ≤
      tawiOrAmount l2 - l2.total_paid) :
    lookupLoan
      (routeCreateTransaction txId T [(1, l1), (2, l2)] pays).loans 2 =
      some l2 ∧
    (hookAllocate T [(1, l1), (2, l2)]).2.1 =
      [(1, tawiOrAmount l1 - l1.total_paid),
       (2, T * (2/5) - (tawiOrAmount l1 - l1.total_paid))] ∧
    (hookAllocate T [(1, l1), (2, l2)]).1 = T * (2/5) := by
  have hrem1pos : 0 < tawiOrAmount l1 - l1.total_paid := sub_pos.mpr h1o
  have hbpos : 0 < T * (2/5) := lt_trans hrem1pos hrem
  have hfil : ([(1, l1), (2, l2)] : List (Nat × Loan)).filter
      (fun p => decide (p.2.status = LoanStatus.approved)) =
      [(1, l1), (2, l2)] := by simp [h1a, h2a]
  have hout : hookOutstanding [(1, l1), (2, l2)] = [(1, l1), (2, l2)] := by
    simp [hookOutstanding, h1a, h2a, h1o, h2o]
  have hgo : hookAllocGo (T * (2/5)) [(1, l1), (2, l2)] =
      (T * (2/5),
       [(1, tawiOrAmount l1 - l1.total_paid),
        (2, T * (2/5) - (tawiOrAmount l1 - l1.total_paid))]) := by
    rw [hookAllocGo]
    rw [if_neg (not_le.mpr hbpos)]
    simp only [min_eq_right hrem.le, if_pos hrem1pos]
    rw [hookAllocGo]
    rw [if_neg (not_le.mpr (by linarith :
      (0:ℚ) < T * (2/5) - (tawiOrAmount l1 - l1.total_paid)))]
    simp only [min_eq_left hleft, if_pos (show
      (0:ℚ) < T * (2/5) - (tawiOrAmount l1 - l1.total_paid) by linarith)]
    simp only [Prod.mk.injEq]
    refine ⟨?_, rfl⟩
    show tawiOrAmount l1 - l1.total_paid +
      (T * (2/5) - (tawiOrAmount l1 - l1.total_paid) + (0:ℚ)) = T * (2/5)
    ring
  refine ⟨?_, ?_, ?_⟩
  · simp only [routeCreateTransaction, hfil]
    by_cases hd0 : 0 < min T (l1.amount - l1.total_paid)
    · rw [if_pos hd0]
      simp [updateLoan, lookupLoan, List.find?]
    · rw [if_neg hd0]
      simp [lookupLoan, List.find?]
  · show (hookAllocGo (T * (2/5))
      (hookOutstanding [(1, l1), (2, l2)])).2 = _
    rw [hout, hgo]
  · show (hookAllocGo (T * (2/5))
      (hookOutstanding [(1, l1), (2, l2)])).1 = _
    rw [hout, hgo]

/-- C5 amended witness: loans `loanC1`, `loanC2` and transaction total
1000 (budget 400, first remainder 100, leftover 300 ≤ 500). -/
theorem fifo_allocation_amended_witness :
    loanC1.status = .approved ∧ loanC2.status = .approved ∧
    loanC1.total_paid < tawiOrAmount loanC1 ∧
    loanC2.total_paid < tawiOrAmount loanC2 ∧
    tawiOrAmount loanC1 - loanC1.total_paid < 1000 * (2/5) ∧
    1000 * (2/5) - (tawiOrAmount loanC1 - loanC1.total_paid) ≤
      tawiOrAmount loanC2 - loanC2.total_paid ∧
    (lookupLoan
      (routeCreateTransaction 9 1000 [(1, loanC1), (2, loanC2)] []).loans
      2 = some loanC2 ∧
     (hookAllocate 1000 [(1, loanC1), (2, loanC2)]).2.1 =
      [(1, tawiOrAmount loanC1 - loanC1.total_paid),
       (2, 1000 * (2/5) - (tawiOrAmount loanC1 - loanC1.total_paid))] ∧
     (hookAllocate 1000 [(1, loanC1), (2, loanC2)]).1 = 1000 * (2/5)) :=
  ⟨rfl, rfl, by norm_num [loanC1, tawiOrAmount],
   by norm_num [loanC2, tawiOrAmount],
   by norm_num [loanC1, tawiOrAmount],
   by norm_num [loanC1, loanC2, tawiOrAmount],
   fifo_allocation_amended 9 1000 loanC1 loanC2 [] rfl rfl
     (by norm_num [loanC1, tawiOrAmount])
     (by norm_num [loanC2, tawiOrAmount])
     (by norm_num [loanC1, tawiOrAmount])
     (by norm_num [loanC1, loanC2, tawiOrAmount])⟩

/-- C3 counterexample: after the auto-debit allocation of a completed
transaction of 500 against `loanA`, the stored loan has
`totalPaid = 500` while `principalPaid + interestPaid = 0` — the
interest-first split computed by the LoanPayment hook is written to
fields the Loan schema does not declare and is dropped on save — so the
conservation law already fails right after the allocation. -/
theorem conservation_counterexample :
    (lookupLoan
      (routeCreateTransaction 7 500 [(1, loanA)] []).loans 1).map
      (fun l => (l.principal_paid + l.interest_paid, l.total_paid)) =
      some (0, 500) ∧
    ¬ ((0 : ℚ) = 500) := by
  refine ⟨?_, by norm_num⟩
  have hfil : ([(1, loanA)] : List (Nat × Loan)).filter
      (fun p => decide (p.2.status = LoanStatus.approved)) = [(1, loanA)]
      := by simp [loanA]
  simp only [routeCreateTransaction, hfil]
  rw [if_pos (show (0:ℚ) < min 500 (loanA.amount - loanA.total_paid) by
    norm_num [loanA, min_def])]
  norm_num [updateLoan, lookupLoan, List.find?, applyLoanPaymentStored,
    loanPreSave, routeLoanFinish, loanA, min_def]

/-- C3 amended: the LoanPayment hook's amortization computation adds an
interest-first split summing to the payment to the in-memory document
and adds the full amount to `totalPaid` with no clamp at
`totalAmountWithInterest`; but the split lands on fields the Loan
schema does not declare, so the stored loan's `principalPaid` and
`interestPaid` are unchanged by auto-debit allocation (which adds the
deduction to `totalPaid` alone) and by reversal (which subtracts it),
and the stored-state identity `principalPaid + interestPaid = totalPaid`
fails after any nonzero allocation on a loan whose stored portions do
not already account for the new total. -/
theorem conservation_amended (txId i : Nat) (T a : ℚ) (l : Loan)
    (pays : List PaymentRec)
    (hst : l.status = .approved) (hlt : l.total_paid < l.amount)
    (hT : 0 < T) :
    ((lookupLoan (routeCreateTransaction txId T [(i, l)] pays).loans i).map
        (fun l2 => (l2.principal_paid, l2.interest_paid, l2.total_paid)) =
      some (l.principal_paid, l.interest_paid,
        l.total_paid + min T (l.amount - l.total_paid))) ∧
    ((reverseLoanUpdate l a).principal_paid = l.principal_paid ∧
     (reverseLoanUpdate l a).interest_paid = l.interest_paid ∧
     (reverseLoanUpdate l a).total_paid = l.total_paid - a) ∧
    ((applyLoanPaymentHook l a).principal_paid +
        (applyLoanPaymentHook l a).interest_paid =
      l.principal_paid + l.interest_paid + a ∧
     (applyLoanPaymentHook l a).total_paid = l.total_paid + a) := by
  refine ⟨?_,
    ⟨reverseLoanUpdate_principal_paid l a,
     reverseLoanUpdate_interest_paid l a,
     reverseLoanUpdate_total_paid l a⟩,
    applyLoanPaymentHook_conservation l a,
    applyLoanPaymentHook_total_paid l a⟩
  have hd : 0 < min T (l.amount - l.total_paid) :=
    lt_min hT (sub_pos.mpr hlt)
  have hfil : ([(i, l)] : List (Nat × Loan)).filter
      (fun p => decide (p.2.status = LoanStatus.approved)) = [(i, l)] := by
    simp [hst]
  simp only [routeCreateTransaction, hfil]
  rw [if_pos hd]
  simp [updateLoan, lookupLoan, List.find?,
    routeLoanFinish_principal_paid, applyLoanPaymentStored_principal_paid,
    routeLoanFinish_interest_paid, applyLoanPaymentStored_interest_paid,
    routeLoanFinish_total_paid, applyLoanPaymentStored_total_paid]

/-- C3 amended witness: the stored allocation, the reversal step and
the in-memory payment algebra at `loanA`, transaction 500 and reversed
amount 300. -/
theorem conservation_amended_witness :
    loanA.status = .approved ∧ loanA.total_paid < loanA.amount ∧
    (0 : ℚ) < 500 ∧
    (((lookupLoan
        (routeCreateTransaction 7 500 [(1, loanA)] []).loans 1).map
        (fun l2 => (l2.principal_paid, l2.interest_paid, l2.total_paid)) =
      some (loanA.principal_paid, loanA.interest_paid,
        loanA.total_paid + min 500 (loanA.amount - loanA.total_paid))) ∧
    ((reverseLoanUpdate loanA 300).principal_paid = loanA.principal_paid ∧
     (reverseLoanUpdate loanA 300).interest_paid = loanA.interest_paid ∧
     (reverseLoanUpdate loanA 300).total_paid = loanA.total_paid - 300) ∧
    ((applyLoanPaymentHook loanA 300).principal_paid +
        (applyLoanPaymentHook loanA 300).interest_paid =
      loanA.principal_paid + loanA.interest_paid + 300 ∧
     (applyLoanPaymentHook loanA 300).total_paid =
       loanA.total_paid + 300)) :=
  ⟨rfl, by norm_num [loanA], by norm_num,
   conservation_amended 7 1 500 300 loanA [] rfl
     (by norm_num [loanA]) (by norm_num)⟩

/-- C2: cancelling or voiding a transaction completed through the
creation route restores the debited loan's `totalPaid`,
`principalPaid`, `interestPaid` and `status` to their values before the
allocation ran — the allocation's persisted effect on the loan is
confined to `totalPaid` and the `paid` flip, and the reversal undoes
exactly those — deletes the LoanPayment row tied to the (transaction,
loan) pair, and zeroes the transaction's `loanDeduction`,
`loanPayments` and `paidAmount` while setting its status to the target
terminal state. -/
theorem reversal_roundtrip_correct (target : TxStatus) (txId i : Nat)
    (T : ℚ) (l : Loan) (pays : List PaymentRec)
    (hst : l.status = .approved) (hlt : l.total_paid < l.amount)
    (hT : 0 < T) :
    (reverseTransaction target txId
        (routeCreateTransaction txId T [(i, l)] pays)).map
      (fun st2 =>
        ((lookupLoan st2.loans i).map Loan.total_paid,
         (lookupLoan st2.loans i).map Loan.principal_paid,
         (lookupLoan st2.loans i).map Loan.interest_paid,
         (lookupLoan st2.loans i).map Loan.status,
         st2.payments,
         st2.tx.loan_deduction, st2.tx.loan_payments,
         st2.tx.paid_amount, st2.tx.status)) =
      some (some l.total_paid, some l.principal_paid,
        some l.interest_paid, some l.status, pays, 0, [], 0, target) := by
  have hd : 0 < min T (l.amount - l.total_paid) :=
    lt_min hT (sub_pos.mpr hlt)
  have hfil : ([(i, l)] : List (Nat × Loan)).filter
      (fun p => decide (p.2.status = LoanStatus.approved)) = [(i, l)] := by
    simp [hst]
  have hroute : routeCreateTransaction txId T [(i, l)] pays =
      { loans := [(i, routeLoanFinish (applyLoanPaymentStored l
          (min T (l.amount - l.total_paid))))]
        payments :=
          { loan := i
            txRef := some txId
            amount := min T (l.amount - l.total_paid) } :: pays
        tx := { total_amount := T
                status := .completed
                loan_deduction := min T (l.amount - l.total_paid)
                amount_after_deduction := T
                paid_amount := T
                loan_payments := [(i, min T (l.amount - l.total_paid))] } }
      := by
    simp only [routeCreateTransaction, hfil]
    rw [if_pos hd]
    simp [updateLoan]
  rw [hroute]
  generalize hgd : min T (l.amount - l.total_paid) = d at hd ⊢
  have hl'tp : (routeLoanFinish (applyLoanPaymentStored l d)).total_paid =
      l.total_paid + d := by
    rw [routeLoanFinish_total_paid, applyLoanPaymentStored_total_paid]
  have hl'am : (routeLoanFinish (applyLoanPaymentStored l d)).amount =
      l.amount := by
    rw [routeLoanFinish_amount, applyLoanPaymentStored_amount]
  have hl2tp : (reverseLoanUpdate
      (routeLoanFinish (applyLoanPaymentStored l d)) d).total_paid =
      l.total_paid := by
    rw [reverseLoanUpdate_total_paid, hl'tp]; ring
  have hl2pp : (reverseLoanUpdate
      (routeLoanFinish (applyLoanPaymentStored l d)) d).principal_paid =
      l.principal_paid := by
    rw [reverseLoanUpdate_principal_paid, routeLoanFinish_principal_paid,
      applyLoanPaymentStored_principal_paid]
  have hl2ip : (reverseLoanUpdate
      (routeLoanFinish (applyLoanPaymentStored l d)) d).interest_paid =
      l.interest_paid := by
    rw [reverseLoanUpdate_interest_paid, routeLoanFinish_interest_paid,
      applyLoanPaymentStored_interest_paid]
  have hl2st : (reverseLoanUpdate
      (routeLoanFinish (applyLoanPaymentStored l d)) d).status =
      .approved := by
    apply reverseLoanUpdate_status_approved
    · exact routeNetStored_status l d hst
    · rw [hl'tp, hl'am]
      simpa using hlt
  have hpairs : reverseAllPairs txId [(i, d)]
      ([(i, routeLoanFinish (applyLoanPaymentStored l d))],
       { loan := i, txRef := some txId, amount := d } :: pays) =
      ([(i, reverseLoanUpdate
          (routeLoanFinish (applyLoanPaymentStored l d)) d)], pays) := by
    rw [reverseAllPairs]
    have hlk : lookupLoan
        [(i, routeLoanFinish (applyLoanPaymentStored l d))] i =
        some (routeLoanFinish (applyLoanPaymentStored l d)) := by
      simp [lookupLoan, List.find?]
    simp only [hlk]
    rw [reverseAllPairs]
    simp [updateLoan, deletePaymentRec]
  simp only [reverseTransaction, if_true]
  rw [if_pos (⟨hd, by simp⟩ :
    (0:ℚ) < d ∧ ([(i, d)] : List (Nat × ℚ)) ≠ [])]
  simp only [hpairs, Option.map_some']
  simp [lookupLoan, List.find?, hl2tp, hl2pp, hl2ip, hl2st, hst]

/-- C2 witness: the round trip at `loanA` and a transaction of 500,
cancelled. -/
theorem reversal_roundtrip_correct_witness :
    loanA.status = .approved ∧ loanA.total_paid < loanA.amount ∧
    (0 : ℚ) < 500 ∧
    ((reverseTransaction .cancelled 7
        (routeCreateTransaction 7 500 [(1, loanA)] [])).map
      (fun st2 =>
        ((lookupLoan st2.loans 1).map Loan.total_paid,
         (lookupLoan st2.loans 1).map Loan.principal_paid,
         (lookupLoan st2.loans 1).map Loan.interest_paid,
         (lookupLoan st2.loans 1).map Loan.status,
         st2.payments,
         st2.tx.loan_deduction, st2.tx.loan_payments,
         st2.tx.paid_amount, st2.tx.status)) =
      some (some loanA.total_paid, some loanA.principal_paid,
        some loanA.interest_paid, some loanA.status,
        ([] : List PaymentRec), 0, [], 0, .cancelled)) :=
  ⟨rfl, by norm_num [loanA], by norm_num,
   reversal_roundtrip_correct .cancelled 7 1 500 loanA [] rfl
     (by norm_num [loanA]) (by norm_num)⟩


/-- C7 amended witness: the starter policy at a single transaction of
total 800. -/
theorem starter_score_amended_witness :
    (initialCreditScore 800).score = 20 ∧
    (initialCreditScore 800).transaction_count = 1 ∧
    (initialCreditScore 800).transaction_consistency = 0 ∧
    (initialCreditScore 800).total_supply_score = 0 ∧
    (initialCreditScore 800).transaction_count_score = 0 ∧
    (initialCreditScore 800).credit_percentage = 3/20 ∧
    (initialCreditScore 800).eligible_amount = 800 * (3/20) ∧
    (initialCreditScore 800).average_transaction = 800 ∧
    (checkLoanEligibility [800]).eligible = true ∧
    (checkLoanEligibility [800]).limit = jsRound (800 * (2/5)) :=
  starter_score_amended 800

/-- C10 witness: the Balance Aggregator evaluated on a supplier with
the single approved loan `loanA`. -/
theorem recalculate_balance_correct_witness :
    (recalculateSupplierBalance { current_balance := 0 }
        [(1, loanA)]).2.current_balance =
      (([(1, loanA)] : List (Nat × Loan)).map (fun p =>
        if p.2.status = .approved then p.2.amount - p.2.total_paid
        else 0)).sum ∧
    (recalculateSupplierBalance { current_balance := 0 } [(1, loanA)]).1 =
      (recalculateSupplierBalance { current_balance := 0 }
        [(1, loanA)]).2.current_balance ∧
    recalculateSupplierBalance
        (recalculateSupplierBalance { current_balance := 0 }
          [(1, loanA)]).2 [(1, loanA)] =
      recalculateSupplierBalance { current_balance := 0 } [(1, loanA)] :=
  recalculate_balance_correct { current_balance := 0 } [(1, loanA)]
